import Mathlib

/-!
Verification development for the ADHub setup-wizard subsystem.

The definitions below are a shallow embedding of the repository's code:

* the TypeScript type declarations of `frontend/src/types/setup.ts`
  (reproduced in `PLAN.md`),
* the Pinia store `frontend/src/stores/setup.ts` (state plus actions,
  with each `await`ed API call made an explicit `Except` parameter),
* the wizard step components `PrerequisitesStep.vue`,
  `DomainConfigStep.vue` and `VerificationStep.vue`,
* and, where the Python backend is not part of the source tree, models
  built from the specification's words (each such definition is marked
  `Modelled from the spec:` in its doc comment).

Theorems about the claims of the specification follow the definitions.
-/

namespace ADHub

/-! ## Types (frontend/src/types/setup.ts) -/

/-- `DNSBackendType` enum. -/
inductive DNSBackendType where
  | SAMBA_INTERNAL
  | BIND9_DLZ
  | NONE
deriving DecidableEq

/-- `DomainFunctionLevel` enum. -/
inductive DomainFunctionLevel where
  | LEVEL_2000
  | LEVEL_2003
  | LEVEL_2008
  | LEVEL_2008_R2
deriving DecidableEq

/-- `DomainConfig` interface. -/
structure DomainConfig where
  realm : String
  domain : String
  domain_name : String
  admin_password : String
  dns_backend : DNSBackendType
  dns_forwarder : String
  server_role : String
  host_ip : Option String := none
  function_level : DomainFunctionLevel
deriving DecidableEq

/-- Status of one prerequisite check: `'passed' | 'failed' | 'warning'`. -/
inductive PrereqStatus where
  | passed
  | failed
  | warning
deriving DecidableEq

/-- `PrerequisiteCheck` interface. -/
structure PrereqCheck where
  check_name : String
  status : PrereqStatus
  message : String
  details : Option String := none
deriving DecidableEq

/-- `PrerequisitesResponse` interface. -/
structure PrerequisitesResponse where
  all_passed : Bool
  checks : List PrereqCheck
deriving DecidableEq

/-- `ProvisionStatus` enum. -/
inductive ProvisionStatus where
  | not_started
  | in_progress
  | completed
  | failed
deriving DecidableEq

/-- `ProvisionResponse` interface. -/
structure ProvisionResponse where
  status : ProvisionStatus
  message : String
  task_id : Option String := none
  output : Option String := none
  error : Option String := none
deriving DecidableEq

/-- Category of a verification test:
`'dns' | 'kerberos' | 'ldap' | 'services' | 'auth' | 'prerequisites'`. -/
inductive TestCategory where
  | dns
  | kerberos
  | ldap
  | services
  | auth
  | prerequisites
deriving DecidableEq

/-- Status of one verification test:
`'passed' | 'failed' | 'skipped' | 'running'`. -/
inductive TestStatus where
  | passed
  | failed
  | skipped
  | running
deriving DecidableEq

/-- `VerificationTest` interface. -/
structure VerificationTest where
  test_name : String
  category : TestCategory
  status : TestStatus
  message : String
  details : Option String := none
  duration_ms : Option Nat := none
deriving DecidableEq

/-- Overall status of a verification run: `'passed' | 'failed' | 'partial'`.
The middle TypeScript value is a reserved word in Lean, so it is rendered
`partialOutcome`. -/
inductive OverallStatus where
  | passed
  | failed
  | partialOutcome
deriving DecidableEq

/-- `VerificationResponse` interface. -/
structure VerificationResponse where
  overall_status : OverallStatus
  total_tests : Nat
  passed : Nat
  failed : Nat
  skipped : Nat
  tests : List VerificationTest
  summary : String
deriving DecidableEq

/-- `SetupStatusResponse` interface. -/
structure SetupStatusResponse where
  is_provisioned : Bool
  domain_info : Option (List (String × String)) := none
  last_provision_date : Option String := none
deriving DecidableEq

/-! ## The setup store (frontend/src/stores/setup.ts)

The Pinia store's reactive refs become the fields of `SetupStoreState`.
Each `async` action that `await`s a `setupApi` call takes the outcome of
that call as an explicit `Except String _` argument (the string is the
thrown `Error`'s message); the action returns the successor state paired
with its own outcome, where `Except.error` marks the action re-throwing. -/

/-- The store's state: one field per `ref` of `useSetupStore`. -/
structure SetupStoreState where
  currentStep : Nat
  setupStatus : Option SetupStatusResponse
  prerequisites : Option PrerequisitesResponse
  verificationResults : Option VerificationResponse
  provisionResponse : Option ProvisionResponse
  loading : Bool
  error : Option String
  domainConfig : DomainConfig
deriving DecidableEq

/-- The initial `domainConfig` ref value. -/
def initialDomainConfig : DomainConfig where
  realm := "EXAMPLE.COM"
  domain := "EXAMPLE"
  domain_name := "example.com"
  admin_password := ""
  dns_backend := DNSBackendType.SAMBA_INTERNAL
  dns_forwarder := "8.8.8.8"
  server_role := "dc"
  host_ip := none
  function_level := DomainFunctionLevel.LEVEL_2008

/-- The store's initial state. -/
def initialStoreState : SetupStoreState where
  currentStep := 0
  setupStatus := none
  prerequisites := none
  verificationResults := none
  provisionResponse := none
  loading := false
  error := none
  domainConfig := initialDomainConfig

/-- Computed `isProvisioned`: `setupStatus.value?.is_provisioned ?? false`. -/
def isProvisioned (s : SetupStoreState) : Bool :=
  match s.setupStatus with
  | some st => st.is_provisioned
  | none => false

/-- Computed `canProceed`: at the Prerequisites step (step 1) it is
`prerequisites.value?.all_passed ?? false`, elsewhere `true`. -/
def canProceed (s : SetupStoreState) : Bool :=
  if s.currentStep = 1 then
    match s.prerequisites with
    | some p => p.all_passed
    | none => false
  else
    true

/-- Action `checkStatus()`. -/
def checkStatus (s : SetupStoreState) (api : Except String SetupStatusResponse) :
    SetupStoreState × Except String SetupStatusResponse :=
  let s1 := { s with loading := true, error := none }
  match api with
  | Except.ok r => ({ s1 with setupStatus := some r, loading := false }, Except.ok r)
  | Except.error e => ({ s1 with error := some e, loading := false }, Except.error e)

/-- Action `checkPrerequisites()`. -/
def checkPrerequisites (s : SetupStoreState) (api : Except String PrerequisitesResponse) :
    SetupStoreState × Except String PrerequisitesResponse :=
  let s1 := { s with loading := true, error := none }
  match api with
  | Except.ok r => ({ s1 with prerequisites := some r, loading := false }, Except.ok r)
  | Except.error e => ({ s1 with error := some e, loading := false }, Except.error e)

/-- Action `validateConfiguration()`: returns the API result, caches nothing. -/
def validateConfiguration {α : Type} (s : SetupStoreState) (api : Except String α) :
    SetupStoreState × Except String α :=
  let s1 := { s with loading := true, error := none }
  match api with
  | Except.ok r => ({ s1 with loading := false }, Except.ok r)
  | Except.error e => ({ s1 with error := some e, loading := false }, Except.error e)

/-- Action `provisionDomain()`. -/
def provisionDomain (s : SetupStoreState) (api : Except String ProvisionResponse) :
    SetupStoreState × Except String ProvisionResponse :=
  let s1 := { s with loading := true, error := none }
  match api with
  | Except.ok r => ({ s1 with provisionResponse := some r, loading := false }, Except.ok r)
  | Except.error e => ({ s1 with error := some e, loading := false }, Except.error e)

/-- Action `runVerificationTests()`. -/
def runVerificationTests (s : SetupStoreState) (api : Except String VerificationResponse) :
    SetupStoreState × Except String VerificationResponse :=
  let s1 := { s with loading := true, error := none }
  match api with
  | Except.ok r => ({ s1 with verificationResults := some r, loading := false }, Except.ok r)
  | Except.error e => ({ s1 with error := some e, loading := false }, Except.error e)

/-- Action `nextStep()`. -/
def nextStep (s : SetupStoreState) : SetupStoreState :=
  if s.currentStep < 7 then { s with currentStep := s.currentStep + 1 } else s

/-- Action `previousStep()`. -/
def previousStep (s : SetupStoreState) : SetupStoreState :=
  if s.currentStep > 0 then { s with currentStep := s.currentStep - 1 } else s

/-- Action `goToStep(step)`. -/
def goToStep (s : SetupStoreState) (step : Nat) : SetupStoreState :=
  { s with currentStep := step }

/-- Action `resetWizard()`. -/
def resetWizard (s : SetupStoreState) : SetupStoreState :=
  { s with
    currentStep := 0
    prerequisites := none
    verificationResults := none
    provisionResponse := none
    error := none }

/-- Action `skipToVerification()`. -/
def skipToVerification (s : SetupStoreState) : SetupStoreState :=
  { s with currentStep := 6 }

/-- Action `resetDomain()`: awaits `setupApi.resetDomain()`, then
`checkStatus()`, then `resetWizard()`; any thrown error is recorded and
re-thrown; `loading` is forced `false` by the `finally`. -/
def resetDomain {α : Type} (s : SetupStoreState) (apiReset : Except String α)
    (apiStatus : Except String SetupStatusResponse) :
    SetupStoreState × Except String α :=
  let s1 := { s with loading := true, error := none }
  match apiReset with
  | Except.error e => ({ s1 with error := some e, loading := false }, Except.error e)
  | Except.ok r =>
    match checkStatus s1 apiStatus with
    | (s2, Except.error e) => ({ s2 with error := some e, loading := false }, Except.error e)
    | (s2, Except.ok _) => ({ resetWizard s2 with loading := false }, Except.ok r)

/-- JavaScript `String.prototype.toUpperCase()` (ASCII case mapping),
written over the character list so that it evaluates by kernel
reduction. -/
def strToUpper (s : String) : String :=
  String.mk (s.data.map Char.toUpper)

/-- JavaScript `String.prototype.toLowerCase()` (ASCII case mapping). -/
def strToLower (s : String) : String :=
  String.mk (s.data.map Char.toLower)

/-! ## PrerequisitesStep.vue

The Continue button of the Prerequisites step fires `setupStore.nextStep()`
and carries `:disabled="!setupStore.canProceed || checking"`; a disabled
button cannot fire its click handler, so a click advances the wizard only
when the guard is open. -/

/-- Clicking Continue on the Prerequisites step: `nextStep()` guarded by the
button's `disabled` binding. -/
def prerequisitesContinueClick (s : SetupStoreState) (checking : Bool) : SetupStoreState :=
  if canProceed s = true ∧ checking = false then nextStep s else s

/-! ## DomainConfigStep.vue -/

/-- Computed `passwordsMatch`. -/
def passwordsMatch (cfg : DomainConfig) (confirmPassword : String) : Bool :=
  cfg.admin_password == confirmPassword

/-- Computed `isValid` of the domain-configuration step. -/
def isValid (cfg : DomainConfig) (confirmPassword : String) : Bool :=
  decide (0 < cfg.realm.length) &&
  decide (0 < cfg.domain.length) &&
  decide (0 < cfg.domain_name.length) &&
  decide (8 ≤ cfg.admin_password.length) &&
  passwordsMatch cfg confirmPassword

/-- `autofillFromDomain()`: on blur of the DNS-domain input, derive the realm
and the NetBIOS domain from `domain_name` (`parts[0] || config.domain_name`
falls back when the first dot-separated part is empty, mirroring JavaScript
falsiness of the empty string). -/
def autofillFromDomain (cfg : DomainConfig) : DomainConfig :=
  if cfg.domain_name ≠ "" then
    let first := String.mk (cfg.domain_name.data.takeWhile fun c => c ≠ '.')
    let base := if first = "" then cfg.domain_name else first
    { cfg with
      realm := strToUpper cfg.domain_name
      domain := strToUpper base }
  else
    cfg

/-- The NetBIOS input carries `maxlength="15"`: the browser truncates typed
values to 15 characters before they reach `config.domain`. -/
def netbiosInputValue (v : String) : String :=
  String.mk (v.data.take 15)

/-! ## VerificationStep.vue -/

/-- The `Record<string, string>` returned by `setupApi.getDomainInfo()`,
restricted to the keys the component reads: `Forest`, `Domain`,
`Netbios domain`. An absent key is `none`. -/
structure DomainInfo where
  forest : Option String := none
  domain : Option String := none
  netbiosDomain : Option String := none
deriving DecidableEq

/-- JavaScript truthiness of an optional string field: present and non-empty. -/
def truthy (o : Option String) : Bool :=
  match o with
  | some s => s ≠ ""
  | none => false

/-- The `if (domainInfo.Forest) cdots` update sequence of
`checkAndPrepareConfig`, followed by forcing `dns_backend` and
`server_role`. -/
def applyDomainInfo (cfg : DomainConfig) (info : DomainInfo) : DomainConfig :=
  let cfg1 :=
    if truthy info.forest then
      { cfg with
        realm := strToUpper (info.forest.getD "")
        domain_name := strToLower (info.forest.getD "") }
    else cfg
  let cfg2 :=
    if truthy info.domain then
      { cfg1 with domain_name := strToLower (info.domain.getD "") }
    else cfg1
  let cfg3 :=
    if truthy info.netbiosDomain then
      { cfg2 with domain := strToUpper (info.netbiosDomain.getD "") }
    else cfg2
  { cfg3 with
    dns_backend := DNSBackendType.SAMBA_INTERNAL
    server_role := "dc" }

/-- Local state of the `VerificationStep` component (its `ref`s) together
with the store it uses. -/
structure VerificationStepState where
  store : SetupStoreState
  running : Bool
  needsPassword : Bool
  adminPassword : String
  passwordError : String
deriving DecidableEq

/-- `checkAndPrepareConfig()`: the `getDomainInfo` API outcome is the
explicit `apiInfo` argument (consulted only when the fetch happens). The
returned `Bool` records whether `setupApi.getDomainInfo()` was invoked. -/
def checkAndPrepareConfig (st : VerificationStepState)
    (apiInfo : Except String DomainInfo) : VerificationStepState × Bool :=
  if isProvisioned st.store = true then
    if st.store.domainConfig.domain_name = "example.com" ∨
        st.store.domainConfig.realm = "EXAMPLE.COM" then
      match apiInfo with
      | Except.ok info =>
        ({ st with
           store :=
             { st.store with domainConfig := applyDomainInfo st.store.domainConfig info }
           needsPassword :=
             decide ((applyDomainInfo st.store.domainConfig info).admin_password.length < 8) },
         true)
      | Except.error e =>
        ({ st with
           passwordError := "Failed to load domain info: " ++ e
           needsPassword := true }, true)
    else
      ({ st with
         needsPassword := decide (st.store.domainConfig.admin_password.length < 8) },
       false)
  else
    ({ st with
       needsPassword := decide (st.store.domainConfig.admin_password.length < 8) },
     false)

/-- `runTests()`: prepares the configuration, then gates on the password and
on the placeholder values before calling `setupStore.runVerificationTests()`.
The returned `Bool` records whether the verification API was invoked. -/
def runTests (st : VerificationStepState) (apiInfo : Except String DomainInfo)
    (apiVerify : Except String VerificationResponse) :
    VerificationStepState × Bool :=
  if (checkAndPrepareConfig st apiInfo).1.store.domainConfig.admin_password = "" ∨
      (checkAndPrepareConfig st apiInfo).1.store.domainConfig.admin_password.length < 8 then
    ({ (checkAndPrepareConfig st apiInfo).1 with
       needsPassword := true
       passwordError := "Administrator password is required for verification tests" },
     false)
  else if (checkAndPrepareConfig st apiInfo).1.store.domainConfig.domain_name = "example.com" ∨
      (checkAndPrepareConfig st apiInfo).1.store.domainConfig.realm = "EXAMPLE.COM" then
    ({ (checkAndPrepareConfig st apiInfo).1 with
       passwordError :=
         "Unable to load domain configuration. Please check if domain is provisioned." },
     false)
  else
    ({ (checkAndPrepareConfig st apiInfo).1 with
       store := (runVerificationTests (checkAndPrepareConfig st apiInfo).1.store apiVerify).1
       running := false },
     true)

/-- `submitPassword()`: rejects a candidate shorter than 8 characters with an
error message; otherwise installs it into the configuration, leaves the
password-prompt sub-state and runs the tests. The returned `Bool` records
whether the verification API was invoked. -/
def submitPassword (st : VerificationStepState) (apiInfo : Except String DomainInfo)
    (apiVerify : Except String VerificationResponse) :
    VerificationStepState × Bool :=
  if st.adminPassword.length < 8 then
    ({ st with passwordError := "Password must be at least 8 characters" }, false)
  else
    runTests
      { st with
        passwordError := ""
        store :=
          { st.store with
            domainConfig :=
              { st.store.domainConfig with admin_password := st.adminPassword } }
        needsPassword := false }
      apiInfo apiVerify

/-! ## Spec-modelled backend pieces

The Python backend (`backend/app/services/samba/provision.py`,
`backend/app/services/samba/verification.py` and the setup API endpoints)
is referenced by the repository's documentation and consumed by the
frontend, but its source is not part of the tree. The definitions below
model those missing parts from the specification. -/

/-- Modelled from the spec: the backend Prerequisite Checker (spec 4.2) is
missing from the tree. It returns `(allPassed, checks)` where `allPassed`
is true iff no check has status `failed` (warnings never block). -/
def mkPrerequisitesResponse (checks : List PrereqCheck) : PrerequisitesResponse where
  all_passed := checks.all fun c => decide (c.status ≠ PrereqStatus.failed)
  checks := checks

/-- Outcome of one verification check before the engine settles it: the
per-check contract of spec 4.4 is a pure function producing
`(success, message, detail?)`; the engine converts any unhandled exception
to a failure, so `ok` already accounts for exception wrapping. -/
structure CheckOutcome where
  name : String
  category : TestCategory
  ok : Bool
  message : String := ""
deriving DecidableEq

/-- Settling a check outcome into a `VerificationTest`: success becomes
`passed`, anything else `failed`. -/
def settleCheck (c : CheckOutcome) : VerificationTest where
  test_name := c.name
  category := c.category
  status := if c.ok then TestStatus.passed else TestStatus.failed
  message := c.message

/-- Marking a not-run dependent query `skipped` (spec 4.4: when the LDAP
bind fails, dependent queries are marked `skipped`, not `failed`). -/
def skipCheck (c : CheckOutcome) : VerificationTest where
  test_name := c.name
  category := c.category
  status := TestStatus.skipped
  message := "Skipped"

/-- Number of tests of a list with a given status. -/
def countStatus (ts : List VerificationTest) (st : TestStatus) : Nat :=
  ts.countP fun t => decide (t.status = st)

/-- Modelled from the spec: the aggregation rule of spec 3, transcribed as
the evident decision list ordered as the spec lists the cases. -/
def overallOf (p f s : Nat) : OverallStatus :=
  if f = 0 ∧ s = 0 then OverallStatus.passed
  else if 0 < p ∧ 0 < f then OverallStatus.partialOutcome
  else OverallStatus.failed

/-- Modelled from the spec: aggregation of a settled test list into a
`VerificationResponse` (spec 4.4: compute counts and `overallStatus` per
the rule of spec 3, plus a one-line summary). -/
def aggregateRun (tests : List VerificationTest) : VerificationResponse :=
  let p := countStatus tests TestStatus.passed
  let f := countStatus tests TestStatus.failed
  let s := countStatus tests TestStatus.skipped
  { overall_status := overallOf p f s
    total_tests := tests.length
    passed := p
    failed := f
    skipped := s
    tests := tests
    summary :=
      toString p ++ " passed, " ++ toString f ++ " failed, " ++
      toString s ++ " skipped" }

/-- Modelled from the spec: the backend Verification Engine
(`SambaVerificationService`, spec 4.4), missing from the tree. The battery
consists of independent checks (prerequisites, DNS, ports, kerberos,
credentialed auth — `before` and `after` relative to the LDAP block), the
anonymous LDAP bind, and the bind-dependent directory queries, which are
settled normally when the bind succeeds and marked `skipped` when it
fails. The run is returned only once complete, so every test is settled
(never `running`). -/
def runVerification (before : List CheckOutcome) (bind : CheckOutcome)
    (deps : List CheckOutcome) (after : List CheckOutcome) :
    VerificationResponse :=
  let tests :=
    before.map settleCheck ++ [settleCheck bind] ++
    (if bind.ok then deps.map settleCheck else deps.map skipCheck) ++
    after.map settleCheck
  aggregateRun tests

/-- Modelled from the spec: one `ProvisionJob` (spec 3). -/
structure ProvisionJob where
  status : ProvisionStatus
  capturedOutput : String
  capturedError : String
  startedAt : Nat
deriving DecidableEq

/-- Modelled from the spec: the state the Provisioning Orchestrator guards
(spec 4.3). `domainExists` is the existing-domain re-check: it covers a
live domain as well as the partial state a previous invocation may have
left, since re-running against partial state can corrupt it and retry is
gated by an explicit reset. `toolInvocations` counts invocations of the
external provisioning tool. -/
structure BackendState where
  domainExists : Bool
  job : Option ProvisionJob
  toolInvocations : Nat
deriving DecidableEq

/-- The message of the precondition-violation rejection. -/
def preconditionViolationMsg : String :=
  "Precondition violation: a domain already exists; reset it before provisioning"

/-- Modelled from the spec: `provision()` of the Provisioning Orchestrator
(spec 4.3, 6), missing from the tree. Before invoking the tool it re-checks
for an existing domain and refuses (precondition violation, no tool
invocation, no new job) unless the wizard explicitly completed a reset;
otherwise it invokes the tool exactly once, classifying exit code 0 as
`completed` and anything else as `failed` with the captured stderr. -/
def provisionBackend (s : BackendState) (toolExit : Nat)
    (toolOut toolErr : String) (now : Nat) :
    BackendState × Except String ProvisionJob :=
  if s.domainExists then
    (s, Except.error preconditionViolationMsg)
  else
    let job : ProvisionJob :=
      { status := if toolExit = 0 then ProvisionStatus.completed else ProvisionStatus.failed
        capturedOutput := toolOut
        capturedError := toolErr
        startedAt := now }
    ({ s with
       domainExists := true
       job := some job
       toolInvocations := s.toolInvocations + 1 },
     Except.ok job)

/-- Modelled from the spec: `resetDomain()` on the backend (spec 4.6),
missing from the tree: after the backup-then-remove sequence completes,
no live domain (or partial provisioning state) remains, so a fresh
provision is allowed again. -/
def resetDomainBackend (s : BackendState) : BackendState :=
  { s with domainExists := false }

/-! ## Theorems -/

/-- C7: `nextStep()` and `previousStep()` move exactly one step through the
linear sequence 0..7: `nextStep` increments `currentStep` when it is below
7 and leaves it unchanged at 7; `previousStep` decrements when it is above
0 and leaves it unchanged at 0; hence `currentStep` stays within 0..7
under these two operations. -/
theorem step_navigation_one_step (s : SetupStoreState) :
    (s.currentStep < 7 → (nextStep s).currentStep = s.currentStep + 1) ∧
    (s.currentStep = 7 → (nextStep s).currentStep = s.currentStep) ∧
    (0 < s.currentStep → (previousStep s).currentStep = s.currentStep - 1) ∧
    (s.currentStep = 0 → (previousStep s).currentStep = s.currentStep) ∧
    (s.currentStep ≤ 7 →
      (nextStep s).currentStep ≤ 7 ∧ (previousStep s).currentStep ≤ 7) := by
  unfold nextStep previousStep
  refine ⟨fun h => ?_, fun h => ?_, fun h => ?_, fun h => ?_, fun h => ⟨?_, ?_⟩⟩ <;>
    split <;> simp_all <;> omega

/-- Witness for `step_navigation_one_step` at the initial state (step 0). -/
theorem step_navigation_one_step_witness :
    initialStoreState.currentStep < 7 ∧
    (nextStep initialStoreState).currentStep = initialStoreState.currentStep + 1 :=
  ⟨by decide, (step_navigation_one_step initialStoreState).1 (by decide)⟩

/-- C10: `resetWizard()` (also reached by a successful `resetDomain()`)
returns `currentStep` to 0 and clears `prerequisites`,
`verificationResults`, `provisionResponse` and `error`, while leaving the
whole `domainConfig` — `admin_password` included — unchanged. -/
theorem resetWizard_resets_and_preserves_config (s : SetupStoreState)
    (stat : SetupStatusResponse) :
    (resetWizard s).currentStep = 0 ∧
    (resetWizard s).prerequisites = none ∧
    (resetWizard s).verificationResults = none ∧
    (resetWizard s).provisionResponse = none ∧
    (resetWizard s).error = none ∧
    (resetWizard s).domainConfig = s.domainConfig ∧
    (resetWizard s).setupStatus = s.setupStatus ∧
    ((resetDomain s (Except.ok ()) (Except.ok stat)).1.currentStep = 0 ∧
     (resetDomain s (Except.ok ()) (Except.ok stat)).1.prerequisites = none ∧
     (resetDomain s (Except.ok ()) (Except.ok stat)).1.verificationResults = none ∧
     (resetDomain s (Except.ok ()) (Except.ok stat)).1.provisionResponse = none ∧
     (resetDomain s (Except.ok ()) (Except.ok stat)).1.error = none ∧
     (resetDomain s (Except.ok ()) (Except.ok stat)).1.domainConfig = s.domainConfig) :=
  ⟨rfl, rfl, rfl, rfl, rfl, rfl, rfl, rfl, rfl, rfl, rfl, rfl, rfl⟩

/-- C9: every store action that calls the backend reacts to a thrown API
call by leaving all cached result fields unchanged, recording the message
in `error`, re-throwing, and ending with `loading = false`; on success
`loading` is also `false` afterwards. The failing cases are stated as
whole-state equations, so the frame (every cached field untouched) is
explicit. -/
theorem store_actions_error_discipline (s : SetupStoreState) (e : String)
    (stat : SetupStatusResponse) (pr : PrerequisitesResponse)
    (vr : VerificationResponse) (pv : ProvisionResponse) (cv : List String) :
    checkStatus s (Except.error e) =
      ({ s with loading := false, error := some e }, Except.error e) ∧
    checkPrerequisites s (Except.error e) =
      ({ s with loading := false, error := some e }, Except.error e) ∧
    validateConfiguration s (Except.error e : Except String (List String)) =
      ({ s with loading := false, error := some e }, Except.error e) ∧
    provisionDomain s (Except.error e) =
      ({ s with loading := false, error := some e }, Except.error e) ∧
    runVerificationTests s (Except.error e) =
      ({ s with loading := false, error := some e }, Except.error e) ∧
    resetDomain s (Except.error e : Except String Unit) (Except.ok stat) =
      ({ s with loading := false, error := some e }, Except.error e) ∧
    resetDomain s (Except.ok ()) (Except.error e) =
      ({ s with loading := false, error := some e }, Except.error e) ∧
    (checkStatus s (Except.ok stat)).1.loading = false ∧
    (checkPrerequisites s (Except.ok pr)).1.loading = false ∧
    (validateConfiguration s (Except.ok cv)).1.loading = false ∧
    (provisionDomain s (Except.ok pv)).1.loading = false ∧
    (runVerificationTests s (Except.ok vr)).1.loading = false ∧
    (resetDomain s (Except.ok ()) (Except.ok stat)).1.loading = false :=
  ⟨rfl, rfl, rfl, rfl, rfl, rfl, rfl, rfl, rfl, rfl, rfl, rfl, rfl⟩

/-- C1: on the Prerequisites step the wizard advances only when the last
prerequisite batch has `all_passed`, and the modelled producer sets
`all_passed` true iff no check in the batch has status `failed` — so
warnings never block, and the wizard cannot pass Prerequisites while any
result is failed. -/
theorem prerequisites_step_gate (s : SetupStoreState) (checks : List PrereqCheck)
    (checking : Bool) (hstep : s.currentStep = 1)
    (hlast : s.prerequisites = some (mkPrerequisitesResponse checks)) :
    ((prerequisitesContinueClick s checking).currentStep ≠ s.currentStep →
      ∀ c ∈ checks, c.status ≠ PrereqStatus.failed) ∧
    ((mkPrerequisitesResponse checks).all_passed = true ↔
      ∀ c ∈ checks, c.status ≠ PrereqStatus.failed) := by
  constructor
  · intro hmove c hc
    by_contra hfail
    apply hmove
    have hap : (mkPrerequisitesResponse checks).all_passed = false := by
      simp only [mkPrerequisitesResponse, List.all_eq_false]
      exact ⟨c, hc, by simp [hfail]⟩
    have hcp : canProceed s = false := by
      simp [canProceed, hstep, hlast, hap]
    simp [prerequisitesContinueClick, hcp]
  · simp [mkPrerequisitesResponse, List.all_eq_true]

/-- Checks used by the witness of `prerequisites_step_gate`: one passed,
one warning — a batch with a warning but no failure. -/
def gateWitnessChecks : List PrereqCheck :=
  [{ check_name := "Samba installation", status := PrereqStatus.passed, message := "ok" },
   { check_name := "Existing domain", status := PrereqStatus.warning, message := "found" }]

/-- Store state used by the witness of `prerequisites_step_gate`. -/
def gateWitnessState : SetupStoreState :=
  { initialStoreState with
    currentStep := 1
    prerequisites := some (mkPrerequisitesResponse gateWitnessChecks) }

/-- Witness for `prerequisites_step_gate`: a session sitting at the
Prerequisites step whose last batch holds a warning but no failure. -/
theorem prerequisites_step_gate_witness :
    gateWitnessState.currentStep = 1 ∧
    gateWitnessState.prerequisites = some (mkPrerequisitesResponse gateWitnessChecks) ∧
    (((prerequisitesContinueClick gateWitnessState false).currentStep ≠
        gateWitnessState.currentStep →
      ∀ c ∈ gateWitnessChecks, c.status ≠ PrereqStatus.failed) ∧
     ((mkPrerequisitesResponse gateWitnessChecks).all_passed = true ↔
      ∀ c ∈ gateWitnessChecks, c.status ≠ PrereqStatus.failed)) :=
  ⟨rfl, rfl, prerequisites_step_gate gateWitnessState gateWitnessChecks false rfl rfl⟩

/-- A configuration whose NetBIOS domain has 17 characters, with all the
fields `isValid` does inspect well-formed. `autofillFromDomain` produces
exactly this `domain` value from the DNS name, so such configurations are
reachable through the step's own handlers even though the NetBIOS input
caps typed text at 15 characters. -/
def longNetbiosConfig : DomainConfig :=
  { initialDomainConfig with
    domain_name := "verylongsubdomain.example.com"
    realm := "VERYLONGSUBDOMAIN.EXAMPLE.COM"
    domain := "VERYLONGSUBDOMAIN"
    admin_password := "Password1" }

/-- C8 counterexample: `isValid` accepts `longNetbiosConfig` although its
NetBIOS domain has 17 > 15 characters, refuting the claim that every
configuration accepted by the validity predicate has a NetBIOS domain of
at most 15 characters; the config is moreover what `autofillFromDomain`
itself produces. -/
theorem isValid_accepts_long_netbios :
    isValid longNetbiosConfig "Password1" = true ∧
    15 < longNetbiosConfig.domain.length ∧
    autofillFromDomain
      { initialDomainConfig with
        domain_name := "verylongsubdomain.example.com"
        admin_password := "Password1" } = longNetbiosConfig := by
  refine ⟨by decide, by decide, by decide⟩

/-- C8 amended: `isValid` is exactly the conjunction of non-empty `realm`,
`domain` and `domain_name`, a password of at least 8 characters, and a
matching confirmation — it places no bound on the NetBIOS length; the
15-character cap exists only as the NetBIOS input's `maxlength`
truncation. -/
theorem isValid_characterization (cfg : DomainConfig) (confirmPassword : String) :
    (isValid cfg confirmPassword = true ↔
      (0 < cfg.realm.length ∧ 0 < cfg.domain.length ∧ 0 < cfg.domain_name.length ∧
       8 ≤ cfg.admin_password.length ∧ cfg.admin_password = confirmPassword)) ∧
    (∀ typed : String, (netbiosInputValue typed).length ≤ 15) := by
  constructor
  · simp [isValid, passwordsMatch, and_assoc]
  · intro typed
    simp [netbiosInputValue]

/-! ### Helper lemmas shared by several theorems -/

/-- `runVerificationTests` never touches `domainConfig`. -/
lemma runVerificationTests_preserves_domainConfig (s : SetupStoreState)
    (api : Except String VerificationResponse) :
    (runVerificationTests s api).1.domainConfig = s.domainConfig := by
  cases api <;> rfl

/-- `provisionDomain` never touches `domainConfig`. -/
lemma provisionDomain_preserves_domainConfig (s : SetupStoreState)
    (api : Except String ProvisionResponse) :
    (provisionDomain s api).1.domainConfig = s.domainConfig := by
  cases api <;> rfl

/-- `applyDomainInfo` rewrites names and backend fields only, never the
administrator password. -/
lemma applyDomainInfo_admin_password (cfg : DomainConfig) (info : DomainInfo) :
    (applyDomainInfo cfg info).admin_password = cfg.admin_password := by
  unfold applyDomainInfo
  split <;> split <;> split <;> rfl

/-- `checkAndPrepareConfig` never changes the administrator password. -/
lemma checkAndPrepareConfig_admin_password (st : VerificationStepState)
    (apiInfo : Except String DomainInfo) :
    (checkAndPrepareConfig st apiInfo).1.store.domainConfig.admin_password =
      st.store.domainConfig.admin_password := by
  unfold checkAndPrepareConfig
  split
  · split
    · cases apiInfo <;> simp [applyDomainInfo_admin_password]
    · rfl
  · rfl

/-- `runTests` never changes the administrator password. -/
lemma runTests_admin_password (st : VerificationStepState)
    (apiInfo : Except String DomainInfo) (apiVerify : Except String VerificationResponse) :
    (runTests st apiInfo apiVerify).1.store.domainConfig.admin_password =
      st.store.domainConfig.admin_password := by
  unfold runTests
  split
  · exact checkAndPrepareConfig_admin_password st apiInfo
  · split
    · exact checkAndPrepareConfig_admin_password st apiInfo
    · show (runVerificationTests (checkAndPrepareConfig st apiInfo).1.store
          apiVerify).1.domainConfig.admin_password = _
      rw [runVerificationTests_preserves_domainConfig]
      exact checkAndPrepareConfig_admin_password st apiInfo

/-! ### Claims about the administrator password and the password gate -/

/-- A wizard session holding the administrator password in its
configuration, as `DomainConfigStep` leaves it. -/
def passwordSessionState : SetupStoreState :=
  { initialStoreState with
    domainConfig := { initialDomainConfig with admin_password := "Str0ngPass1!" } }

/-- A sample successful verification response. -/
def sampleVerificationResponse : VerificationResponse :=
  { overall_status := OverallStatus.passed
    total_tests := 1
    passed := 1
    failed := 0
    skipped := 0
    tests := [{ test_name := "DNS: Resolve domain", category := TestCategory.dns,
                status := TestStatus.passed, message := "ok" }]
    summary := "1 passed, 0 failed, 0 skipped" }

/-- A sample successful provision response. -/
def sampleProvisionResponse : ProvisionResponse :=
  { status := ProvisionStatus.completed, message := "ok" }

/-- C4 counterexample: after `runVerificationTests` and after
`provisionDomain` complete successfully, the session's configuration
still holds the administrator password verbatim, refuting the claim that
the password no longer outlives those calls. -/
theorem password_survives_calls :
    (runVerificationTests passwordSessionState
        (Except.ok sampleVerificationResponse)).1.domainConfig.admin_password =
      "Str0ngPass1!" ∧
    (provisionDomain passwordSessionState
        (Except.ok sampleProvisionResponse)).1.domainConfig.admin_password =
      "Str0ngPass1!" ∧
    ("Str0ngPass1!" : String) ≠ "" :=
  ⟨rfl, rfl, by decide⟩

/-- C4 amended: `provisionDomain` and `runVerificationTests` leave the
whole `domainConfig` — the administrator password included — unchanged,
whatever the API outcome: the store never clears the password after the
call that needed it; it persists in the in-memory session state. -/
theorem password_retained_in_config (s : SetupStoreState)
    (rv : Except String VerificationResponse) (rp : Except String ProvisionResponse) :
    (runVerificationTests s rv).1.domainConfig = s.domainConfig ∧
    (provisionDomain s rp).1.domainConfig = s.domainConfig :=
  ⟨runVerificationTests_preserves_domainConfig s rv,
   provisionDomain_preserves_domainConfig s rp⟩

/-- C5: when the session's `admin_password` is shorter than 8 characters,
`runTests` does not invoke the verification API and enters the
password-prompt sub-state (`needsPassword`); `submitPassword` keeps
rejecting candidates shorter than 8 characters without invoking the API,
and installs a candidate of at least 8 characters into the
configuration. -/
theorem runTests_password_gate (st : VerificationStepState)
    (apiInfo : Except String DomainInfo) (apiVerify : Except String VerificationResponse)
    (hshort : st.store.domainConfig.admin_password.length < 8) :
    (runTests st apiInfo apiVerify).2 = false ∧
    (runTests st apiInfo apiVerify).1.needsPassword = true ∧
    (st.adminPassword.length < 8 →
      (submitPassword st apiInfo apiVerify).2 = false ∧
      (submitPassword st apiInfo apiVerify).1.passwordError =
        "Password must be at least 8 characters") ∧
    (8 ≤ st.adminPassword.length →
      (submitPassword st apiInfo apiVerify).1.store.domainConfig.admin_password =
        st.adminPassword) := by
  have hgate :
      (checkAndPrepareConfig st apiInfo).1.store.domainConfig.admin_password = "" ∨
      (checkAndPrepareConfig st apiInfo).1.store.domainConfig.admin_password.length < 8 := by
    right
    rw [checkAndPrepareConfig_admin_password]
    exact hshort
  refine ⟨?_, ?_, ?_, ?_⟩
  · unfold runTests
    rw [if_pos hgate]
  · unfold runTests
    rw [if_pos hgate]
  · intro hcand
    unfold submitPassword
    rw [if_pos (by simpa using hcand)]
    exact ⟨rfl, rfl⟩
  · intro hcand
    unfold submitPassword
    rw [if_neg (by simp; omega)]
    rw [runTests_admin_password]

/-- Component state used by the witness of `runTests_password_gate`: a
fresh, unprovisioned session whose password is still empty and whose
prompt field holds a five-character candidate. -/
def shortPasswordStepState : VerificationStepState :=
  { store := initialStoreState
    running := false
    needsPassword := false
    adminPassword := "short"
    passwordError := "" }

/-- Witness for `runTests_password_gate` on `shortPasswordStepState`. -/
theorem runTests_password_gate_witness :
    shortPasswordStepState.store.domainConfig.admin_password.length < 8 ∧
    ((runTests shortPasswordStepState (Except.ok {}) (Except.ok sampleVerificationResponse)).2 = false ∧
     (runTests shortPasswordStepState (Except.ok {}) (Except.ok sampleVerificationResponse)).1.needsPassword = true ∧
     (shortPasswordStepState.adminPassword.length < 8 →
       (submitPassword shortPasswordStepState (Except.ok {}) (Except.ok sampleVerificationResponse)).2 = false ∧
       (submitPassword shortPasswordStepState (Except.ok {}) (Except.ok sampleVerificationResponse)).1.passwordError =
         "Password must be at least 8 characters") ∧
     (8 ≤ shortPasswordStepState.adminPassword.length →
       (submitPassword shortPasswordStepState (Except.ok {}) (Except.ok sampleVerificationResponse)).1.store.domainConfig.admin_password =
         shortPasswordStepState.adminPassword)) :=
  ⟨by decide,
   runTests_password_gate shortPasswordStepState (Except.ok {})
     (Except.ok sampleVerificationResponse) (by decide)⟩

/-- C6: for a provisioned domain, entering Verification fetches the
read-only introspection (`getDomainInfo`) exactly when the configuration
still carries the placeholder defaults (`domain_name = "example.com"` or
`realm = "EXAMPLE.COM"`); and whenever the configuration still equals the
placeholders after preparation, `runTests` refuses to invoke the
verification API. -/
theorem verification_introspection_guard (st : VerificationStepState)
    (info : DomainInfo) (apiVerify : Except String VerificationResponse)
    (hprov : isProvisioned st.store = true) :
    ((checkAndPrepareConfig st (Except.ok info)).2 = true ↔
      (st.store.domainConfig.domain_name = "example.com" ∨
       st.store.domainConfig.realm = "EXAMPLE.COM")) ∧
    (∀ apiInfo : Except String DomainInfo,
      ((checkAndPrepareConfig st apiInfo).1.store.domainConfig.domain_name = "example.com" ∨
       (checkAndPrepareConfig st apiInfo).1.store.domainConfig.realm = "EXAMPLE.COM") →
      (runTests st apiInfo apiVerify).2 = false) := by
  constructor
  · unfold checkAndPrepareConfig
    rw [if_pos hprov]
    by_cases hfetch :
        st.store.domainConfig.domain_name = "example.com" ∨
        st.store.domainConfig.realm = "EXAMPLE.COM"
    · rw [if_pos hfetch]
      simp [hfetch]
    · rw [if_neg hfetch]
      simp [hfetch]
  · intro apiInfo hplace
    unfold runTests
    by_cases hpw :
        (checkAndPrepareConfig st apiInfo).1.store.domainConfig.admin_password = "" ∨
        (checkAndPrepareConfig st apiInfo).1.store.domainConfig.admin_password.length < 8
    · rw [if_pos hpw]
    · rw [if_neg hpw, if_pos hplace]

/-- Component state used by the witness of
`verification_introspection_guard`: a provisioned session still carrying
the placeholder configuration. -/
def provisionedStepState : VerificationStepState :=
  { store :=
      { initialStoreState with
        setupStatus := some { is_provisioned := true } }
    running := false
    needsPassword := false
    adminPassword := ""
    passwordError := "" }

/-- Witness for `verification_introspection_guard` on
`provisionedStepState`. -/
theorem verification_introspection_guard_witness :
    isProvisioned provisionedStepState.store = true ∧
    (((checkAndPrepareConfig provisionedStepState (Except.ok {})).2 = true ↔
      (provisionedStepState.store.domainConfig.domain_name = "example.com" ∨
       provisionedStepState.store.domainConfig.realm = "EXAMPLE.COM")) ∧
     (∀ apiInfo : Except String DomainInfo,
       ((checkAndPrepareConfig provisionedStepState apiInfo).1.store.domainConfig.domain_name = "example.com" ∨
        (checkAndPrepareConfig provisionedStepState apiInfo).1.store.domainConfig.realm = "EXAMPLE.COM") →
       (runTests provisionedStepState apiInfo (Except.ok sampleVerificationResponse)).2 = false)) :=
  ⟨rfl,
   verification_introspection_guard provisionedStepState {}
     (Except.ok sampleVerificationResponse) rfl⟩

/-! ### Provisioning precondition (C3) -/

/-- C3: once `provision()` has run, calling it again without an intervening
`resetDomain()` is rejected as a precondition violation: the second call
returns the error, leaves the backend state — job included — untouched and
does not re-invoke the provisioning tool; after an explicit reset a fresh
provision invokes the tool again. -/
theorem provision_twice_requires_reset (s : BackendState)
    (exit1 exit2 exit3 : Nat) (out1 err1 out2 err2 out3 err3 : String)
    (t1 t2 t3 : Nat) (hclean : s.domainExists = false) :
    ((provisionBackend s exit1 out1 err1 t1).1.toolInvocations = s.toolInvocations + 1 ∧
     (provisionBackend s exit1 out1 err1 t1).1.job.isSome = true) ∧
    (provisionBackend (provisionBackend s exit1 out1 err1 t1).1 exit2 out2 err2 t2 =
      ((provisionBackend s exit1 out1 err1 t1).1, Except.error preconditionViolationMsg)) ∧
    ((provisionBackend (resetDomainBackend (provisionBackend s exit1 out1 err1 t1).1)
        exit3 out3 err3 t3).1.toolInvocations =
      (provisionBackend s exit1 out1 err1 t1).1.toolInvocations + 1) := by
  simp [provisionBackend, resetDomainBackend, hclean]

/-- A backend with no existing domain, used by the witness of
`provision_twice_requires_reset`. -/
def cleanBackendState : BackendState :=
  { domainExists := false, job := none, toolInvocations := 0 }

/-- Witness for `provision_twice_requires_reset` on `cleanBackendState`. -/
theorem provision_twice_requires_reset_witness :
    cleanBackendState.domainExists = false ∧
    (((provisionBackend cleanBackendState 0 "ok" "" 1).1.toolInvocations =
        cleanBackendState.toolInvocations + 1 ∧
      (provisionBackend cleanBackendState 0 "ok" "" 1).1.job.isSome = true) ∧
     (provisionBackend (provisionBackend cleanBackendState 0 "ok" "" 1).1 0 "again" "" 2 =
       ((provisionBackend cleanBackendState 0 "ok" "" 1).1,
        Except.error preconditionViolationMsg)) ∧
     ((provisionBackend (resetDomainBackend (provisionBackend cleanBackendState 0 "ok" "" 1).1)
         0 "fresh" "" 3).1.toolInvocations =
       (provisionBackend cleanBackendState 0 "ok" "" 1).1.toolInvocations + 1)) :=
  ⟨rfl, provision_twice_requires_reset cleanBackendState 0 0 0 "ok" "" "again" "" "fresh" "" 1 2 3 rfl⟩

/-! ### Verification-run aggregation (C2) -/

/-- Counting a cons cell. -/
lemma countStatus_cons (t : VerificationTest) (ts : List VerificationTest)
    (st : TestStatus) :
    countStatus (t :: ts) st =
      countStatus ts st + (if t.status = st then 1 else 0) := by
  simp [countStatus, List.countP_cons]

/-- `countStatus` distributes over list append. -/
lemma countStatus_append (l1 l2 : List VerificationTest) (st : TestStatus) :
    countStatus (l1 ++ l2) st = countStatus l1 st + countStatus l2 st := by
  simp [countStatus, List.countP_append]

/-- Counting settled checks: each contributes `passed` or `failed`, never
`skipped`. -/
lemma settle_counts (l : List CheckOutcome) :
    countStatus (l.map settleCheck) TestStatus.passed +
      countStatus (l.map settleCheck) TestStatus.failed = l.length ∧
    countStatus (l.map settleCheck) TestStatus.skipped = 0 := by
  induction l with
  | nil => exact ⟨rfl, rfl⟩
  | cons c cs ih =>
    obtain ⟨ih1, ih2⟩ := ih
    rw [List.map_cons, countStatus_cons, countStatus_cons, countStatus_cons,
      List.length_cons]
    cases hc : c.ok <;> simp only [settleCheck, hc, if_true, if_false] <;>
      simp <;> omega

/-- Counting skipped checks. -/
lemma skip_counts (l : List CheckOutcome) :
    countStatus (l.map skipCheck) TestStatus.passed = 0 ∧
    countStatus (l.map skipCheck) TestStatus.failed = 0 ∧
    countStatus (l.map skipCheck) TestStatus.skipped = l.length := by
  induction l with
  | nil => exact ⟨rfl, rfl, rfl⟩
  | cons c cs ih =>
    obtain ⟨ih1, ih2, ih3⟩ := ih
    rw [List.map_cons, countStatus_cons, countStatus_cons, countStatus_cons,
      List.length_cons]
    simp only [skipCheck]
    simp
    omega

/-- Counts contributed by the single bind test. -/
lemma bind_counts (c : CheckOutcome) :
    countStatus [settleCheck c] TestStatus.passed = (if c.ok then 1 else 0) ∧
    countStatus [settleCheck c] TestStatus.failed = (if c.ok then 0 else 1) ∧
    countStatus [settleCheck c] TestStatus.skipped = 0 := by
  cases hc : c.ok <;> simp [countStatus, settleCheck, hc]

/-- Structural facts about every run the engine produces: the three counts
partition the tests, a skipped test forces a failed bind test, and the
battery is never empty. -/
lemma runVerification_counts (before : List CheckOutcome) (bind : CheckOutcome)
    (deps after : List CheckOutcome) :
    (runVerification before bind deps after).passed +
      (runVerification before bind deps after).failed +
      (runVerification before bind deps after).skipped =
      (runVerification before bind deps after).total_tests ∧
    (0 < (runVerification before bind deps after).skipped →
      0 < (runVerification before bind deps after).failed) ∧
    0 < (runVerification before bind deps after).total_tests := by
  obtain ⟨hb1, hb2⟩ := settle_counts before
  obtain ⟨ha1, ha2⟩ := settle_counts after
  obtain ⟨hd1, hd2⟩ := settle_counts deps
  obtain ⟨hk1, hk2, hk3⟩ := skip_counts deps
  obtain ⟨hc1, hc2, hc3⟩ := bind_counts bind
  by_cases hok : bind.ok = true
  · rw [if_pos hok] at hc1 hc2
    simp only [runVerification, aggregateRun, if_pos hok, countStatus_append,
      List.length_append, List.length_map, List.length_cons, List.length_nil]
    omega
  · rw [if_neg hok] at hc1 hc2
    simp only [runVerification, aggregateRun, if_neg hok, countStatus_append,
      List.length_append, List.length_map, List.length_cons, List.length_nil]
    omega

/-- The aggregation rule of spec 3, characterized for count triples that an
engine run can produce. -/
lemma overallOf_spec (p f s n : Nat) (hsum : p + f + s = n) (hpos : 0 < n)
    (hsf : 0 < s → 0 < f) :
    (overallOf p f s = OverallStatus.passed ↔ (f = 0 ∧ s = 0)) ∧
    (overallOf p f s = OverallStatus.partialOutcome ↔ (0 < p ∧ 0 < f)) ∧
    (overallOf p f s = OverallStatus.failed ↔ p = 0) := by
  unfold overallOf
  by_cases h1 : f = 0 ∧ s = 0
  · obtain ⟨hf, hs⟩ := h1
    rw [if_pos ⟨hf, hs⟩]
    refine ⟨by simp [hf, hs], by simp [hf], by simp; omega⟩
  · rw [if_neg h1]
    by_cases h2 : 0 < p ∧ 0 < f
    · rw [if_pos h2]
      exact ⟨by simp [h1], by simp [h2], by simp; omega⟩
    · rw [if_neg h2]
      have hf : 0 < f := by
        rcases Nat.eq_zero_or_pos f with hf0 | hfp
        · have hs : 0 < s := by
            rcases Nat.eq_zero_or_pos s with hs0 | hsp
            · exact absurd ⟨hf0, hs0⟩ h1
            · exact hsp
          have := hsf hs
          omega
        · exact hfp
      have hp : p = 0 := by
        by_contra hp0
        exact h2 ⟨Nat.pos_of_ne_zero hp0, hf⟩
      exact ⟨by simp; omega, by simp; omega, by simp [hp]⟩

/-- C2: every run the modelled `runVerification` produces satisfies
`passedCount + failedCount + skippedCount = totalCount`, and its
`overallStatus` satisfies the rule of spec 3: `passed` iff no failure and
no skip, `partial` iff some pass and some failure, `failed` iff no
pass. -/
theorem verification_run_matches_spec (before : List CheckOutcome)
    (bind : CheckOutcome) (deps after : List CheckOutcome) :
    (runVerification before bind deps after).passed +
      (runVerification before bind deps after).failed +
      (runVerification before bind deps after).skipped =
      (runVerification before bind deps after).total_tests ∧
    ((runVerification before bind deps after).overall_status = OverallStatus.passed ↔
      ((runVerification before bind deps after).failed = 0 ∧
       (runVerification before bind deps after).skipped = 0)) ∧
    ((runVerification before bind deps after).overall_status = OverallStatus.partialOutcome ↔
      (0 < (runVerification before bind deps after).passed ∧
       0 < (runVerification before bind deps after).failed)) ∧
    ((runVerification before bind deps after).overall_status = OverallStatus.failed ↔
      (runVerification before bind deps after).passed = 0) := by
  obtain ⟨hsum, hsf, hpos⟩ := runVerification_counts before bind deps after
  have hov :=
    overallOf_spec (runVerification before bind deps after).passed
      (runVerification before bind deps after).failed
      (runVerification before bind deps after).skipped
      (runVerification before bind deps after).total_tests hsum hpos hsf
  exact ⟨hsum, hov.1, hov.2.1, hov.2.2⟩

end ADHub
